import Mathlib

/-!
Verification development for the FoodAnxietyTracker repository.

The repository has two variants of the same application: a desktop form
(`AnxietyMain.py`, Tkinter + a CSV flat file) and a hosted web form
(`cloudapp.py`, Streamlit + a row-oriented table service).  Both share the
same record schema and the same four aggregation views (time series,
mean symptom severity, mean anxiety per food source, medication
effectiveness).  This file gives a shallow embedding of the record schema,
the form-submission constructors, the four view branches, the desktop
state (in-memory table plus persisted file), the hosted load path, and the
CSV serialization layer, and proves or refutes the frozen claims about
them.

Machine reals of the Python source are embedded as rationals, timestamps
as an explicit raw-string-or-parsed-instant sum type, and the pandas cell
parser as an explicit total function on cell strings.
-/

/-- Severity encoding, from `severity_to_numeric` in both `AnxietyMain.py`
(lines 247-250) and `cloudapp.py` (lines 152-155): a dictionary lookup
`{"None": 0, "Mild": 1, "Moderate": 2, "Severe": 3}.get(severity, 0)`. -/
def severity_to_numeric (severity : String) : Nat :=
  (List.lookup severity
    [("None", 0), ("Mild", 1), ("Moderate", 2), ("Severe", 3)]).getD 0

/-- Timestamp values as they live in a data-frame column: either the raw
string form produced by `strftime` (or the backend's `created_at`), or the
parsed date-time produced by `pd.to_datetime`, modelled as the instant it
denotes (a natural number). -/
inductive TsVal where
  | raw (s : String)
  | parsed (n : Nat)
deriving DecidableEq, Repr

/-- Model of parsing a timestamp string of the fixed `strftime` format
`"YYYY-MM-DD HH:MM:SS"` into the instant it denotes: the digit fold is
injective and order-preserving on that fixed-width format. -/
def parseTs (s : String) : Nat :=
  s.foldl (fun a c => if c.isDigit then a * 10 + (c.toNat - 48) else a) 0

/-- Model of `pd.to_datetime` on one cell: a raw string is parsed, an
already-parsed value is left as is. -/
def to_datetime : TsVal → TsVal
  | .raw s => .parsed (parseTs s)
  | .parsed n => .parsed n

/-- Instant denoted by a timestamp cell, whether still raw or parsed. -/
def denoteTs : TsVal → Nat
  | .raw s => parseTs s
  | .parsed n => n

/-- One row of the table, with the field set of the record schema.
`created_at` is the server-assigned creation instant of the hosted
variant (unused by the desktop variant, which orders by append position);
`med_types` is kept as the list of selected medication types and joined
to a comma-separated string only at the serialization layer. -/
structure Row where
  created_at : Nat := 0
  timestamp : TsVal
  food_source : String
  eating_location : String
  anxiety_level : Int
  breathing_difficulty : String
  swallowing_difficulty : String
  scratchy_throat : String
  stomach_pain : String
  chest_pain : String
  reflux : String
  food_eaten : String
  concerns : String
  additional_comments : String
  took_meds : Bool
  med_types : List String
  meds_helped : Bool
deriving DecidableEq, Repr

/-- The four visualization choices offered by both variants. -/
inductive VizType where
  | anxietyOverTime
  | symptomSeverity
  | foodSourceAnalysis
  | medEffectiveness
deriving DecidableEq, Repr

/-- Result of one visualization request: the rendered chart data, or one
of the explicit empty-state markers the code displays instead. `noData` is
the top-level "No data available" warning; `insufficientData` is the
"Need at least 2 data points for time series" message; `noMedData` is the
"No medication data available" message; `nothingDrawn` models a branch
whose column guard failed so no chart is produced. -/
inductive VizResult where
  | noData
  | insufficientData
  | nothingDrawn
  | timeSeries (pts : List (Nat × Int))
  | severityBars (bars : List (String × ℚ))
  | foodSourceBars (bars : List (String × ℚ))
  | medEffect (helped notHelped : ℚ)
  | noMedData
deriving DecidableEq, Repr

/-- Arithmetic mean of a rational column, `Series.mean`: sum divided by
count. -/
def qmean (xs : List ℚ) : ℚ := xs.sum / xs.length

/-- The six symptom column names iterated by the symptom-severity branch. -/
def symptoms : List String :=
  ["breathing_difficulty", "swallowing_difficulty", "scratchy_throat",
   "stomach_pain", "chest_pain", "reflux"]

/-- Projection of a symptom column by name from a row. -/
def getSym (s : String) (r : Row) : String :=
  if s = "breathing_difficulty" then r.breathing_difficulty
  else if s = "swallowing_difficulty" then r.swallowing_difficulty
  else if s = "scratchy_throat" then r.scratchy_throat
  else if s = "stomach_pain" then r.stomach_pain
  else if s = "chest_pain" then r.chest_pain
  else if s = "reflux" then r.reflux
  else ""

/-- Character-level model of `.replace('_', ' ').title()`: underscores
become spaces and start a new word, the first character of each word is
upper-cased, the rest lower-cased. -/
def titleChars : Bool → List Char → List Char
  | _, [] => []
  | _, '_' :: cs => ' ' :: titleChars true cs
  | wordStart, c :: cs =>
    (if wordStart then c.toUpper else c.toLower) :: titleChars false cs

/-- Model of `symptom.replace('_', ' ').title()` on the underscore-joined
lower-case column names. -/
def titleize (s : String) : String := String.mk (titleChars true s.data)

/-- The full column list of the hosted table (`load_user_data`), a
superset of the desktop CSV columns. -/
def allColumns : List String :=
  ["id", "user_id", "created_at", "timestamp", "food_source",
   "eating_location", "anxiety_level", "breathing_difficulty",
   "swallowing_difficulty", "scratchy_throat", "stomach_pain",
   "chest_pain", "reflux", "food_eaten", "concerns",
   "additional_comments", "took_meds", "med_types", "meds_helped"]

/-- Severity means per symptom, from the Symptom Severity branch of both
variants: for each of the six symptom columns present in the frame, the
mean of the 0-3 encoding over all rows, keyed by the title-cased name. -/
def severityData (cols : List String) (data : List Row) : List (String × ℚ) :=
  (symptoms.filter (fun s => cols.contains s)).map
    (fun s => (titleize s, qmean (data.map (fun r => (severity_to_numeric (getSym s r) : ℚ)))))

/-- Symptom Severity branch: draws the bar chart of `severityData` when
the dictionary is non-empty, otherwise draws nothing. -/
def symptomSeverityView (cols : List String) (data : List Row) : VizResult :=
  if severityData cols data ≠ [] then .severityBars (severityData cols data)
  else .nothingDrawn

/-- Insertion of an element into a list so that `le` keeps holding along
the result when it held along the input. -/
def insertBy (le : α → α → Bool) (a : α) : List α → List α
  | [] => [a]
  | x :: xs => if le a x then a :: x :: xs else x :: insertBy le a xs

/-- Insertion sort by a boolean comparison. -/
def sortBy (le : α → α → Bool) : List α → List α
  | [] => []
  | x :: xs => insertBy le x (sortBy le xs)

/-- Mean anxiety per food-source group, from the Food Source Analysis
branch: `data.groupby('food_source')['anxiety_level'].mean()`, with group
keys in ascending order as pandas produces them. -/
def foodAnxiety (data : List Row) : List (String × ℚ) :=
  (sortBy (fun a b => decide (a ≤ b)) (data.map (fun r => r.food_source)).dedup).map
    (fun k => (k, qmean ((data.filter (fun r => r.food_source = k)).map
      (fun r => (r.anxiety_level : ℚ)))))

/-- Food Source Analysis branch, with its column guard. -/
def foodSourceView (cols : List String) (data : List Row) : VizResult :=
  if cols.contains "food_source" && cols.contains "anxiety_level" then
    .foodSourceBars (foodAnxiety data)
  else .nothingDrawn

/-- Medication Effectiveness branch, `cloudapp.py` lines 360-382 and
`AnxietyMain.py` lines 305-318: restrict to rows with `took_meds`; if any
remain, chart `effectiveness = helped_count / total_count * 100` next to
`100 - effectiveness`, else show the no-medication-data message. -/
def medEffectivenessView (cols : List String) (data : List Row) : VizResult :=
  if cols.contains "took_meds" && cols.contains "meds_helped" then
    let med := data.filter (fun r => r.took_meds)
    if med.isEmpty then .noMedData
    else
      let eff : ℚ := (med.countP (fun r => r.meds_helped) : ℚ) / (med.length : ℚ) * 100
      .medEffect eff (100 - eff)
  else .nothingDrawn

/-- Anxiety Over Time branch: with more than one row, the
`(timestamp, anxiety_level)` series in row order; otherwise the
insufficient-data message. -/
def anxietyOverTimeView (data : List Row) : VizResult :=
  if 1 < data.length then
    .timeSeries (data.map (fun r => (denoteTs r.timestamp, r.anxiety_level)))
  else .insufficientData

/-- The hosted visualizations page (`visualizations_page`): bail out with
the "No data available" warning on an empty frame, otherwise convert the
timestamp column with `pd.to_datetime` and dispatch on the selected
visualization. -/
def visualizations_page (cols : List String) (data : List Row) (viz : VizType) : VizResult :=
  if data.isEmpty then .noData
  else
    let d := data.map (fun r => { r with timestamp := to_datetime r.timestamp })
    match viz with
    | .anxietyOverTime => anxietyOverTimeView d
    | .symptomSeverity => symptomSeverityView cols d
    | .foodSourceAnalysis => foodSourceView cols d
    | .medEffectiveness => medEffectivenessView cols d

/-- The hosted load path (`load_user_data`): the backend returns the
user's rows ordered by `created_at` descending, and the page aliases
`timestamp` to `created_at`. -/
def load_user_data (rows : List Row) : List Row :=
  sortBy (fun a b => decide (b.created_at ≤ a.created_at))
    (rows.map (fun r => { r with timestamp := TsVal.parsed r.created_at }))

/-- The desktop application state: the in-memory data frame `self.data`
and the content of the persisted CSV file, written only by `save_data`. -/
structure AppState where
  data : List Row
  file : List Row
deriving DecidableEq, Repr

/-- Desktop `save_data`: write the in-memory frame to the CSV file. -/
def save_data (st : AppState) : AppState := { st with file := st.data }

/-- Desktop `generate_plot` (`AnxietyMain.py` lines 252-325): on an empty
frame show the "No Data" warning and return at once; otherwise convert
`self.data['timestamp']` in place with `pd.to_datetime` and dispatch on
the selected visualization.  The in-place column assignment makes this an
operation on the application state, returned alongside the chart. -/
def generate_plot (cols : List String) (st : AppState) (viz : VizType) :
    AppState × VizResult :=
  if st.data.isEmpty then (st, .noData)
  else
    let d := st.data.map (fun r => { r with timestamp := to_datetime r.timestamp })
    ({ st with data := d },
      match viz with
      | .anxietyOverTime => anxietyOverTimeView d
      | .symptomSeverity => symptomSeverityView cols d
      | .foodSourceAnalysis => foodSourceView cols d
      | .medEffectiveness => medEffectivenessView cols d)

/-- State of the desktop entry form at submission time: the widget-bound
variables read by `submit_entry`. -/
structure DesktopForm where
  food_source : String
  eating_location : String
  anxiety_level : Int
  breathing_difficulty : String
  swallowing_difficulty : String
  scratchy_throat : String
  stomach_pain : String
  chest_pain : String
  reflux : String
  food_eaten : String
  concerns : String
  additional_comments : String
  took_meds : Bool
  meds_helped : Bool
  allergy_med : Bool
  anxiety_med : Bool
  other_med : Bool
deriving DecidableEq, Repr

/-- Desktop `submit_entry` (`AnxietyMain.py` lines 169-198): the new entry
dictionary.  `med_types` is collected from the three checkboxes with no
guard on `took_meds`, and `meds_helped` is read from its radio buttons
with no guard either. -/
def submit_entry (f : DesktopForm) (now : String) : Row :=
  { created_at := 0
    timestamp := .raw now
    food_source := f.food_source
    eating_location := f.eating_location
    anxiety_level := f.anxiety_level
    breathing_difficulty := f.breathing_difficulty
    swallowing_difficulty := f.swallowing_difficulty
    scratchy_throat := f.scratchy_throat
    stomach_pain := f.stomach_pain
    chest_pain := f.chest_pain
    reflux := f.reflux
    food_eaten := f.food_eaten
    concerns := f.concerns
    additional_comments := f.additional_comments
    took_meds := f.took_meds
    med_types :=
      (if f.allergy_med then ["Allergy"] else []) ++
      (if f.anxiety_med then ["Anxiety"] else []) ++
      (if f.other_med then ["Other"] else [])
    meds_helped := f.meds_helped }

/-- State of the web entry form at submission time: radio choices are the
literal option strings, checkboxes are booleans. -/
structure WebForm where
  food_source : String
  eating_location : String
  anxiety_level : Int
  breathing_difficulty : String
  swallowing_difficulty : String
  scratchy_throat : String
  stomach_pain : String
  chest_pain : String
  reflux : String
  food_eaten : String
  concerns : String
  additional_comments : String
  took_meds_choice : String
  allergy_box : Bool
  anxiety_box : Bool
  other_box : Bool
  meds_helped_choice : String
deriving DecidableEq, Repr

/-- Web `data_entry_page` submission (`cloudapp.py` lines 236-280): the
medication checkboxes and the helped radio are only consulted when the
took-meds radio is "Yes"; otherwise `med_types` stays empty and
`meds_helped` defaults to false. -/
def data_entry_page (w : WebForm) : Row :=
  let took := w.took_meds_choice = "Yes"
  { created_at := 0
    timestamp := .parsed 0
    food_source := w.food_source
    eating_location := w.eating_location
    anxiety_level := w.anxiety_level
    breathing_difficulty := w.breathing_difficulty
    swallowing_difficulty := w.swallowing_difficulty
    scratchy_throat := w.scratchy_throat
    stomach_pain := w.stomach_pain
    chest_pain := w.chest_pain
    reflux := w.reflux
    food_eaten := w.food_eaten
    concerns := w.concerns
    additional_comments := w.additional_comments
    took_meds := took
    med_types :=
      if took then
        (if w.allergy_box then ["Allergy"] else []) ++
        (if w.anxiety_box then ["Anxiety"] else []) ++
        (if w.other_box then ["Other"] else [])
      else []
    meds_helped := if took then w.meds_helped_choice = "Yes" else false }

/-- Typed value of one cell after `pd.read_csv` has parsed it: a string, a
parsed integer, a parsed boolean, or a missing value (NaN). -/
inductive Cell where
  | str (s : String)
  | int (n : Int)
  | bool (b : Bool)
  | nan
deriving DecidableEq, Repr

/-- The default `na_values` sentinel strings of `pd.read_csv`: a cell
whose text is one of these is loaded as missing (NaN). -/
def naValues : List String :=
  ["", "#N/A", "#N/A N/A", "#NA", "-1.#IND", "-1.#QNAN", "-NaN", "-nan",
   "1.#IND", "1.#QNAN", "<NA>", "N/A", "NA", "NULL", "NaN", "None",
   "n/a", "nan", "null"]

/-- Digit-sequence parser used by the cell parser: the numeral value of a
non-empty all-digit character list, if it is one. -/
def digitsToNat : List Char → Option Nat
  | [] => none
  | cs => go cs 0
where
  go : List Char → Nat → Option Nat
    | [], acc => some acc
    | c :: cs, acc =>
      if c.isDigit then go cs (acc * 10 + (c.toNat - 48)) else none

/-- Integer-numeral parser used by the cell parser: an optional leading
minus sign followed by digits. -/
def strToInt (s : String) : Option Int :=
  match s.data with
  | '-' :: cs => (digitsToNat cs).map (fun n => -(n : Int))
  | cs => (digitsToNat cs).map (fun n => (n : Int))

/-- Model of the `pd.read_csv` cell parser: NA sentinels load as missing,
boolean literals as booleans, integer numerals as integers, anything else
as the string itself.  (Decimal and scientific float literals, which no
field of this schema produces, are not modelled.) -/
def parseCell (s : String) : Cell :=
  if naValues.contains s then .nan
  else if s = "True" then .bool true
  else if s = "False" then .bool false
  else
    match strToInt s with
    | some n => .int n
    | none => .str s

/-- Serialization of a boolean by `DataFrame.to_csv`: the literal Python
`repr`, capitalized. -/
def serializeBool (b : Bool) : String := if b then "True" else "False"

/-- Serialization of a timestamp cell: the raw `strftime` string, or the
decimal rendering of a parsed instant. -/
def serializeTs : TsVal → String
  | .raw s => s
  | .parsed n => toString n

/-- One CSV row written by `save_data` via `DataFrame.to_csv`, in the
header-column order of `load_data`: booleans as literal `True`/`False`,
`med_types` joined with `", "` as `submit_entry` stores it. -/
def serializeRow (r : Row) : List String :=
  [serializeTs r.timestamp, r.food_source, r.eating_location,
   toString r.anxiety_level, r.breathing_difficulty,
   r.swallowing_difficulty, r.scratchy_throat, r.stomach_pain,
   r.chest_pain, r.reflux, r.food_eaten, r.concerns,
   r.additional_comments, serializeBool r.took_meds,
   String.intercalate ", " r.med_types, serializeBool r.meds_helped]

/-- Desktop `save_data` at the file level: one serialized row per entry. -/
def save_csv (rows : List Row) : List (List String) := rows.map serializeRow

/-- Desktop `load_data` at the file level, `pd.read_csv`: every cell of
every row goes through the cell parser. -/
def load_csv (table : List (List String)) : List (List Cell) :=
  table.map (fun row => row.map parseCell)

/-- The in-memory cell values of a row before serialization, in the same
column order: the values a faithful reload would have to reproduce. -/
def origCells (r : Row) : List Cell :=
  [.str (serializeTs r.timestamp), .str r.food_source,
   .str r.eating_location, .int r.anxiety_level,
   .str r.breathing_difficulty, .str r.swallowing_difficulty,
   .str r.scratchy_throat, .str r.stomach_pain, .str r.chest_pain,
   .str r.reflux, .str r.food_eaten, .str r.concerns,
   .str r.additional_comments, .bool r.took_meds,
   .str (String.intercalate ", " r.med_types), .bool r.meds_helped]

/-- A string cell survives the reload parser unchanged. -/
def strPreserved (s : String) : Prop := parseCell s = .str s

instance (s : String) : Decidable (strPreserved s) := by
  unfold strPreserved; infer_instance

/-- Concrete row used by counterexamples and witnesses: the default form
state of both variants submitted untouched. -/
def baseRow : Row :=
  { created_at := 0, timestamp := .parsed 0, food_source := "Home",
    eating_location := "Home", anxiety_level := 0,
    breathing_difficulty := "None", swallowing_difficulty := "None",
    scratchy_throat := "None", stomach_pain := "None",
    chest_pain := "None", reflux := "None", food_eaten := "",
    concerns := "", additional_comments := "", took_meds := false,
    med_types := [], meds_helped := false }

/-- Concrete row with one elevated severity, for the mean-severity
example. -/
def sevRow : Row := { baseRow with breathing_difficulty := "Severe" }

/-- The three-entry example sequence of the medication-effectiveness
claim: anxiety levels 2, 8, 5 with took-meds flags false, true, true and
helped flags false, true, false. -/
def exMedRows : List Row :=
  [{ baseRow with anxiety_level := 2 },
   { baseRow with anxiety_level := 8, took_meds := true, meds_helped := true },
   { baseRow with anxiety_level := 5, took_meds := true }]

/-- The hosted time-series pipeline as the app runs it: load the user's
rows and render the Anxiety Over Time visualization. -/
def anxietyCloud (cols : List String) (rows : List Row) : VizResult :=
  visualizations_page cols (load_user_data rows) .anxietyOverTime

/-- Timestamps of a rendered time series, empty for any other result. -/
def tsTimes : VizResult → List Nat
  | .timeSeries pts => pts.map Prod.fst
  | _ => []

/-- Two hosted rows created at instants 1 and 2, for the time-series
ordering counterexample. -/
def rowA : Row := { baseRow with created_at := 1, anxiety_level := 2 }

/-- Companion row to `rowA`, created later. -/
def rowB : Row := { baseRow with created_at := 2, anxiety_level := 8 }

/-- Concrete desktop state whose single row still has its timestamp in
raw string form, as after a fresh submission. -/
def exState : AppState :=
  { data := [{ baseRow with timestamp := .raw "2024-01-01 00:00:00" }],
    file := [{ baseRow with timestamp := .raw "2024-01-01 00:00:00" }] }

/-- Erasure of the timestamp field, to state which row fields a view may
change. -/
def eraseTs (r : Row) : Row := { r with timestamp := .parsed 0 }

/-- The default state of the desktop entry form. -/
def baseDeskForm : DesktopForm :=
  { food_source := "Home", eating_location := "Home", anxiety_level := 0,
    breathing_difficulty := "None", swallowing_difficulty := "None",
    scratchy_throat := "None", stomach_pain := "None",
    chest_pain := "None", reflux := "None", food_eaten := "",
    concerns := "", additional_comments := "", took_meds := false,
    meds_helped := false, allergy_med := false, anxiety_med := false,
    other_med := false }

/-- The default state of the web entry form. -/
def baseWebForm : WebForm :=
  { food_source := "Home", eating_location := "Home", anxiety_level := 0,
    breathing_difficulty := "None", swallowing_difficulty := "None",
    scratchy_throat := "None", stomach_pain := "None",
    chest_pain := "None", reflux := "None", food_eaten := "",
    concerns := "", additional_comments := "", took_meds_choice := "No",
    allergy_box := false, anxiety_box := false, other_box := false,
    meds_helped_choice := "No" }

/-- Validity-plus-fidelity condition on a row for the CSV round trip: a
valid entry (anxiety in [0, 10], enum fields in their enums) whose
severity fields avoid the NA sentinel "None" and whose timestamp,
free-text and joined medication-type cells survive the cell parser as
strings. -/
def goodRow (r : Row) : Prop :=
  0 ≤ r.anxiety_level ∧ r.anxiety_level ≤ 10 ∧
  r.food_source ∈ (["Home", "Out"] : List String) ∧
  r.eating_location ∈ (["Home", "Out"] : List String) ∧
  r.breathing_difficulty ∈ (["Mild", "Moderate", "Severe"] : List String) ∧
  r.swallowing_difficulty ∈ (["Mild", "Moderate", "Severe"] : List String) ∧
  r.scratchy_throat ∈ (["Mild", "Moderate", "Severe"] : List String) ∧
  r.stomach_pain ∈ (["Mild", "Moderate", "Severe"] : List String) ∧
  r.chest_pain ∈ (["Mild", "Moderate", "Severe"] : List String) ∧
  r.reflux ∈ (["Mild", "Moderate", "Severe"] : List String) ∧
  strPreserved (serializeTs r.timestamp) ∧
  strPreserved r.food_eaten ∧ strPreserved r.concerns ∧
  strPreserved r.additional_comments ∧
  strPreserved (String.intercalate ", " r.med_types)

/-- A fully-filled valid row that satisfies the round-trip fidelity
condition. -/
def wRow : Row :=
  { baseRow with
    timestamp := .raw "2024-01-01 10:00:00",
    anxiety_level := 7,
    breathing_difficulty := "Mild", swallowing_difficulty := "Mild",
    scratchy_throat := "Moderate", stomach_pain := "Severe",
    chest_pain := "Mild", reflux := "Mild",
    food_eaten := "pizza from the corner shop", concerns := "gluten",
    additional_comments := "felt ok afterwards",
    took_meds := true, med_types := ["Allergy", "Other"],
    meds_helped := true }

theorem mem_insertBy {le : α → α → Bool} {a b : α} {l : List α} :
    b ∈ insertBy le a l ↔ b = a ∨ b ∈ l := by
  induction l with
  | nil => simp [insertBy]
  | cons x xs ih =>
    by_cases h : le a x = true
    · simp only [insertBy, if_pos h, List.mem_cons]
    · simp only [insertBy, if_neg h, List.mem_cons, ih]
      tauto

theorem length_insertBy {le : α → α → Bool} {a : α} {l : List α} :
    (insertBy le a l).length = l.length + 1 := by
  induction l with
  | nil => rfl
  | cons x xs ih =>
    by_cases h : le a x = true
    · simp [insertBy, h]
    · simp [insertBy, h, ih]

theorem length_sortBy {le : α → α → Bool} {l : List α} :
    (sortBy le l).length = l.length := by
  induction l with
  | nil => rfl
  | cons x xs ih => simp [sortBy, length_insertBy, ih]

theorem mem_sortBy {le : α → α → Bool} {b : α} {l : List α} :
    b ∈ sortBy le l ↔ b ∈ l := by
  induction l with
  | nil => simp [sortBy]
  | cons x xs ih => simp [sortBy, mem_insertBy, ih, List.mem_cons]

theorem pairwise_insertBy {le : α → α → Bool}
    (htot : ∀ x y, le x y = true ∨ le y x = true)
    (htrans : ∀ x y z, le x y = true → le y z = true → le x z = true)
    {a : α} {l : List α} (hl : l.Pairwise (fun x y => le x y = true)) :
    (insertBy le a l).Pairwise (fun x y => le x y = true) := by
  induction l with
  | nil => simp [insertBy]
  | cons x xs ih =>
    rcases List.pairwise_cons.mp hl with ⟨hx, hxs⟩
    by_cases h : le a x = true
    · simp only [insertBy, if_pos h]
      refine List.pairwise_cons.mpr ⟨?_, hl⟩
      intro b hb
      rcases List.mem_cons.mp hb with hb | hb
      · subst hb; exact h
      · exact htrans a x b h (hx b hb)
    · simp only [insertBy, if_neg h]
      refine List.pairwise_cons.mpr ⟨?_, ih hxs⟩
      intro b hb
      rcases mem_insertBy.mp hb with hb | hb
      · rw [hb]
        rcases htot a x with h1 | h1
        · exact absurd h1 h
        · exact h1
      · exact hx b hb

theorem pairwise_sortBy {le : α → α → Bool}
    (htot : ∀ x y, le x y = true ∨ le y x = true)
    (htrans : ∀ x y z, le x y = true → le y z = true → le x z = true)
    (l : List α) :
    (sortBy le l).Pairwise (fun x y => le x y = true) := by
  induction l with
  | nil => simp [sortBy]
  | cons x xs ih => exact pairwise_insertBy htot htrans ih

theorem qmean_bounds {xs : List ℚ} (hne : xs ≠ [])
    (h0 : ∀ x ∈ xs, 0 ≤ x) (h3 : ∀ x ∈ xs, x ≤ 3) :
    0 ≤ qmean xs ∧ qmean xs ≤ 3 := by
  have hl : 0 < (xs.length : ℚ) := by
    have := List.length_pos.mpr hne
    exact_mod_cast this
  constructor
  · exact div_nonneg (List.sum_nonneg h0) (le_of_lt hl)
  · rw [qmean, div_le_iff₀ hl]
    calc xs.sum ≤ xs.length • (3 : ℚ) := List.sum_le_card_nsmul xs 3 h3
    _ = 3 * xs.length := by rw [nsmul_eq_mul]; ring

theorem severity_to_numeric_unknown {s : String}
    (h : s ∉ (["None", "Mild", "Moderate", "Severe"] : List String)) :
    severity_to_numeric s = 0 := by
  simp only [List.mem_cons, not_or, List.not_mem_nil] at h
  obtain ⟨h1, h2, h3, h4, -⟩ := h
  have e1 : (s == "None") = false := beq_eq_false_iff_ne.mpr h1
  have e2 : (s == "Mild") = false := beq_eq_false_iff_ne.mpr h2
  have e3 : (s == "Moderate") = false := beq_eq_false_iff_ne.mpr h3
  have e4 : (s == "Severe") = false := beq_eq_false_iff_ne.mpr h4
  simp [severity_to_numeric, List.lookup, e1, e2, e3, e4]

theorem severity_to_numeric_mem (s : String) :
    severity_to_numeric s ∈ ([0, 1, 2, 3] : List Nat) := by
  by_cases h1 : s = "None"
  · subst h1; decide
  by_cases h2 : s = "Mild"
  · subst h2; decide
  by_cases h3 : s = "Moderate"
  · subst h3; decide
  by_cases h4 : s = "Severe"
  · subst h4; decide
  · have : severity_to_numeric s = 0 := by
      apply severity_to_numeric_unknown
      simp [h1, h2, h3, h4]
    rw [this]; decide

theorem severity_to_numeric_le_three (s : String) :
    severity_to_numeric s ≤ 3 := by
  have := severity_to_numeric_mem s
  simp only [List.mem_cons, List.not_mem_nil, or_false] at this
  rcases this with h | h | h | h <;> omega

/-- C2: `severity_to_numeric` is a total deterministic function on
strings mapping "None" to 0, "Mild" to 1, "Moderate" to 2, "Severe" to 3,
and every other input to 0; its result is always in the set {0, 1, 2, 3},
and the same input always yields the same output. -/
theorem severity_to_numeric_spec :
    severity_to_numeric "None" = 0 ∧ severity_to_numeric "Mild" = 1 ∧
    severity_to_numeric "Moderate" = 2 ∧ severity_to_numeric "Severe" = 3 ∧
    (∀ s : String, s ∉ (["None", "Mild", "Moderate", "Severe"] : List String) →
      severity_to_numeric s = 0) ∧
    (∀ s : String, severity_to_numeric s ∈ ([0, 1, 2, 3] : List Nat)) ∧
    (∀ s t : String, s = t → severity_to_numeric s = severity_to_numeric t) :=
  ⟨rfl, rfl, rfl, rfl, fun _ h => severity_to_numeric_unknown h,
   severity_to_numeric_mem, fun _ _ h => by rw [h]⟩

/-- Witness for C2: the unknown-input default and the range property at
concrete inputs. -/
theorem severity_to_numeric_spec_witness :
    severity_to_numeric "Unknown" = 0 ∧
    severity_to_numeric "Severe" ∈ ([0, 1, 2, 3] : List Nat) :=
  ⟨severity_to_numeric_spec.2.2.2.2.1 "Unknown" (by decide),
   severity_to_numeric_spec.2.2.2.2.2.1 "Severe"⟩

/-- C7: applying any of the four aggregation views to an empty entry
sequence yields the "no data" empty-state result in both variants, and
the desktop variant's state is left untouched. -/
theorem empty_data_noData_spec :
    ∀ (cols : List String) (viz : VizType) (file : List Row),
      visualizations_page cols [] viz = .noData ∧
      generate_plot cols ⟨[], file⟩ viz = (⟨[], file⟩, .noData) :=
  fun _ _ _ => ⟨rfl, rfl⟩

/-- C10: for a non-empty entry sequence, even with arbitrary severity
strings, every per-symptom mean produced by the mean-severity view lies
in the closed interval [0, 3]. -/
theorem severity_mean_bounds_spec (cols : List String) (rows : List Row)
    (hne : rows ≠ []) :
    ∀ p ∈ severityData cols rows, 0 ≤ p.2 ∧ p.2 ≤ 3 := by
  intro p hp
  rcases List.mem_map.mp hp with ⟨s, _, rfl⟩
  apply qmean_bounds
  · simp [hne]
  · intro x hx
    rcases List.mem_map.mp hx with ⟨r, _, rfl⟩
    positivity
  · intro x hx
    rcases List.mem_map.mp hx with ⟨r, _, rfl⟩
    exact_mod_cast severity_to_numeric_le_three (getSym s r)

/-- Witness for C10: the breathing-difficulty mean over a singleton
sequence is within bounds. -/
theorem severity_mean_bounds_spec_witness :
    0 ≤ qmean ([baseRow].map
      (fun r => (severity_to_numeric (getSym "breathing_difficulty" r) : ℚ))) ∧
    qmean ([baseRow].map
      (fun r => (severity_to_numeric (getSym "breathing_difficulty" r) : ℚ))) ≤ 3 :=
  severity_mean_bounds_spec allColumns [baseRow] (by decide)
    (titleize "breathing_difficulty", qmean ([baseRow].map
      (fun r => (severity_to_numeric (getSym "breathing_difficulty" r) : ℚ))))
    (List.mem_map_of_mem _ (by decide))

/-- C8: the mean-severity view computes, for each of the 6 symptom fields
present in the data, the unweighted arithmetic mean (sum divided by
count) of the 0-3 encoding over all entries, omits fields that are not
present, and on severities "None" and "Severe" for breathing difficulty
yields the mean 3/2. -/
theorem symptomSeverity_mean_spec (cols : List String) (rows : List Row)
    (hne : rows ≠ []) :
    symptoms.length = 6 ∧
    (severityData cols rows).map Prod.fst =
      (symptoms.filter (fun s => cols.contains s)).map titleize ∧
    (∀ s ∈ symptoms, cols.contains s = true →
      (titleize s,
        (rows.map (fun r => (severity_to_numeric (getSym s r) : ℚ))).sum / rows.length)
        ∈ severityData cols rows) ∧
    ("Breathing Difficulty", (3 : ℚ)/2) ∈ severityData allColumns [baseRow, sevRow] := by
  refine ⟨by decide, ?_, ?_, ?_⟩
  · simp [severityData, List.map_map, Function.comp]
  · intro s hs hc
    have hq : (rows.map (fun r => (severity_to_numeric (getSym s r) : ℚ))).sum / rows.length
        = qmean (rows.map (fun r => (severity_to_numeric (getSym s r) : ℚ))) := by
      rw [qmean, List.length_map]
    rw [hq]
    exact List.mem_map_of_mem _ (List.mem_filter.mpr ⟨hs, hc⟩)
  · have ht : titleize "breathing_difficulty" = "Breathing Difficulty" := by decide
    have e1 : severity_to_numeric (getSym "breathing_difficulty" baseRow) = 0 := by decide
    have e2 : severity_to_numeric (getSym "breathing_difficulty" sevRow) = 3 := by decide
    have hval : qmean ([baseRow, sevRow].map
        (fun r => (severity_to_numeric (getSym "breathing_difficulty" r) : ℚ))) = 3/2 := by
      have hmap : ([baseRow, sevRow].map
          (fun r => (severity_to_numeric (getSym "breathing_difficulty" r) : ℚ))) = [(0 : ℚ), 3] := by
        simp [e1, e2]
      rw [hmap]; norm_num [qmean]
    have hmem := List.mem_map_of_mem
      (fun s => (titleize s, qmean ([baseRow, sevRow].map
        (fun r => (severity_to_numeric (getSym s r) : ℚ)))))
      (show "breathing_difficulty" ∈ symptoms.filter (fun s => allColumns.contains s) by decide)
    simpa only [severityData, ht, hval] using hmem

/-- Witness for C8: the breathing-difficulty mean over the two-row
example is listed by the view, and equals 3/2. -/
theorem symptomSeverity_mean_spec_witness :
    (titleize "breathing_difficulty",
      (([baseRow, sevRow] : List Row).map
        (fun r => (severity_to_numeric (getSym "breathing_difficulty" r) : ℚ))).sum /
        (([baseRow, sevRow] : List Row).length)) ∈ severityData allColumns [baseRow, sevRow] ∧
    ("Breathing Difficulty", (3 : ℚ)/2) ∈ severityData allColumns [baseRow, sevRow] :=
  ⟨(symptomSeverity_mean_spec allColumns [baseRow, sevRow] (by decide)).2.2.1
      "breathing_difficulty" (by decide) (by decide),
   (symptomSeverity_mean_spec allColumns [baseRow, sevRow] (by decide)).2.2.2⟩

/-- C1: on a sequence with at least one took-meds entry, the
medication-effectiveness view returns the helped ratio
(count of restricted entries with meds_helped) / (count restricted) x 100
paired with its complement, and the two sum to exactly 100; on the
three-entry example the result is 50 and 50; when no entry has took_meds
the view shows the no-medication-data marker instead of dividing. -/
theorem medEffectiveness_ratio_spec (cols : List String) (data : List Row)
    (hc1 : cols.contains "took_meds" = true)
    (hc2 : cols.contains "meds_helped" = true) :
    ((∃ r ∈ data, r.took_meds = true) →
      ∃ eff : ℚ,
        medEffectivenessView cols data = .medEffect eff (100 - eff) ∧
        eff = ((data.filter (fun r => r.took_meds)).countP (fun r => r.meds_helped) : ℚ) /
          ((data.filter (fun r => r.took_meds)).length : ℚ) * 100 ∧
        eff + (100 - eff) = 100) ∧
    ((∀ r ∈ data, r.took_meds = false) → medEffectivenessView cols data = .noMedData) ∧
    medEffectivenessView allColumns exMedRows = .medEffect 50 50 := by
  refine ⟨?_, ?_, ?_⟩
  · rintro ⟨r, hr, hrt⟩
    have hne : data.filter (fun r => r.took_meds) ≠ [] :=
      List.ne_nil_of_mem (List.mem_filter.mpr ⟨hr, hrt⟩)
    have hie : (data.filter (fun r => r.took_meds)).isEmpty = false := by
      simpa [List.isEmpty_iff] using hne
    refine ⟨((data.filter (fun r => r.took_meds)).countP (fun r => r.meds_helped) : ℚ) /
      ((data.filter (fun r => r.took_meds)).length : ℚ) * 100, ?_, rfl, by ring⟩
    simp only [medEffectivenessView, hc1, hc2, Bool.and_self, if_true, hie,
      Bool.false_eq_true, if_false]
  · intro h
    have hf : data.filter (fun r => r.took_meds) = [] := by
      rw [List.filter_eq_nil_iff]
      intro r hr
      simp [h r hr]
    simp only [medEffectivenessView, hc1, hc2, Bool.and_self, if_true, hf]
    rfl
  · norm_num [medEffectivenessView, allColumns, exMedRows, baseRow,
      List.filter, List.countP, List.countP.go]

/-- Witness for C1: the fifty-fifty example, the no-medication marker,
and the ratio-complement shape at the example sequence. -/
theorem medEffectiveness_ratio_spec_witness :
    medEffectivenessView allColumns exMedRows = .medEffect 50 50 ∧
    medEffectivenessView allColumns [baseRow] = .noMedData ∧
    ∃ eff : ℚ,
      medEffectivenessView allColumns exMedRows = .medEffect eff (100 - eff) ∧
      eff = ((exMedRows.filter (fun r => r.took_meds)).countP (fun r => r.meds_helped) : ℚ) /
        ((exMedRows.filter (fun r => r.took_meds)).length : ℚ) * 100 ∧
      eff + (100 - eff) = 100 :=
  ⟨(medEffectiveness_ratio_spec allColumns exMedRows (by decide) (by decide)).2.2,
   (medEffectiveness_ratio_spec allColumns [baseRow] (by decide) (by decide)).2.1
     (by decide),
   (medEffectiveness_ratio_spec allColumns exMedRows (by decide) (by decide)).1
     ⟨{ baseRow with anxiety_level := 8, took_meds := true, meds_helped := true },
      by decide, rfl⟩⟩

theorem length_load_user_data (rows : List Row) :
    (load_user_data rows).length = rows.length := by
  rw [load_user_data, length_sortBy, List.length_map]

theorem timestamp_load_user_data {rows : List Row} {x : Row}
    (hx : x ∈ load_user_data rows) : x.timestamp = .parsed x.created_at := by
  rw [load_user_data, mem_sortBy] at hx
  rcases List.mem_map.mp hx with ⟨r, -, rfl⟩
  rfl

theorem sorted_load_user_data (rows : List Row) :
    (load_user_data rows).Pairwise (fun a b => b.created_at ≤ a.created_at) := by
  have h := @pairwise_sortBy Row
    (fun a b : Row => decide (b.created_at ≤ a.created_at))
    (fun x y => by
      rcases le_total y.created_at x.created_at with h | h
      · exact Or.inl (decide_eq_true h)
      · exact Or.inr (decide_eq_true h))
    (fun x y z hxy hyz => by
      have h1 := of_decide_eq_true hxy
      have h2 := of_decide_eq_true hyz
      exact decide_eq_true (le_trans h2 h1))
    (rows.map (fun r => { r with timestamp := TsVal.parsed r.created_at }))
  exact h.imp (fun hab => of_decide_eq_true hab)

/-- C3 counterexample: on two hosted rows created at instants 1 and 2 the
time-series pipeline renders the pairs most-recent first, (2, 8) before
(1, 2), which is not ascending timestamp order; and on an empty sequence
it shows the general no-data warning, not the insufficient-data marker. -/
theorem timeSeries_ascending_cex :
    anxietyCloud allColumns [rowA, rowB] = .timeSeries [(2, 8), (1, 2)] ∧
    ¬ List.Pairwise (fun a b : Nat => a ≤ b)
      (tsTimes (anxietyCloud allColumns [rowA, rowB])) ∧
    anxietyCloud allColumns [] = .noData ∧
    VizResult.noData ≠ VizResult.insufficientData := by
  refine ⟨by decide, ?_, rfl, by decide⟩
  have e : tsTimes (anxietyCloud allColumns [rowA, rowB]) = [2, 1] := by decide
  rw [e]
  decide

/-- C3 (amended): with at least 2 entries the hosted time-series pipeline
renders the (created_at, anxiety_level) pairs of the loaded rows, which
the load path orders by created_at descending, so the series is in
reverse chronological (non-increasing timestamp) order; with exactly one
entry it returns the insufficient-data marker, and with zero entries the
general no-data marker. -/
theorem timeSeries_order_spec (cols : List String) (rows : List Row) :
    (2 ≤ rows.length →
      anxietyCloud cols rows =
        .timeSeries ((load_user_data rows).map (fun r => (r.created_at, r.anxiety_level))) ∧
      ((load_user_data rows).map (fun r => (r.created_at, r.anxiety_level))).Pairwise
        (fun p q => q.1 ≤ p.1)) ∧
    (rows.length = 1 → anxietyCloud cols rows = .insufficientData) ∧
    (rows = [] → anxietyCloud cols rows = .noData) := by
  refine ⟨?_, ?_, ?_⟩
  · intro h2
    have hlen : (load_user_data rows).length = rows.length := length_load_user_data rows
    have hne : (load_user_data rows).isEmpty = false := by
      cases hcase : load_user_data rows with
      | nil => rw [hcase] at hlen; simp at hlen; omega
      | cons a l => rfl
    constructor
    · rw [anxietyCloud, visualizations_page]
      simp only [hne, Bool.false_eq_true, if_false]
      rw [anxietyOverTimeView]
      have hlen2 : 1 < ((load_user_data rows).map
          (fun r => { r with timestamp := to_datetime r.timestamp })).length := by
        rw [List.length_map]; omega
      rw [if_pos hlen2, List.map_map]
      congr 1
      apply List.map_congr_left
      intro a ha
      have := timestamp_load_user_data ha
      simp [Function.comp, this, to_datetime, denoteTs]
    · exact (sorted_load_user_data rows).map _
        (fun a b hab => by simpa using hab)
  · intro h1
    have hlen : (load_user_data rows).length = 1 := by
      rw [length_load_user_data, h1]
    have hne : (load_user_data rows).isEmpty = false := by
      cases hcase : load_user_data rows with
      | nil => rw [hcase] at hlen; simp at hlen
      | cons a l => rfl
    rw [anxietyCloud, visualizations_page]
    simp only [hne, Bool.false_eq_true, if_false]
    rw [anxietyOverTimeView, if_neg]
    rw [List.length_map, hlen]
    omega
  · intro h
    subst h
    rfl

/-- Witness for C3: the two-row example is rendered most-recent first and
is non-increasing, the one-row example gives the insufficient-data
marker, the empty example the no-data marker. -/
theorem timeSeries_order_spec_witness :
    (anxietyCloud allColumns [rowA, rowB] =
      .timeSeries ((load_user_data [rowA, rowB]).map (fun r => (r.created_at, r.anxiety_level))) ∧
      ((load_user_data [rowA, rowB]).map (fun r => (r.created_at, r.anxiety_level))).Pairwise
        (fun p q => q.1 ≤ p.1)) ∧
    anxietyCloud allColumns [rowA] = .insufficientData ∧
    anxietyCloud allColumns [] = .noData :=
  ⟨(timeSeries_order_spec allColumns [rowA, rowB]).1 (by decide),
   (timeSeries_order_spec allColumns [rowA]).2.1 (by decide),
   (timeSeries_order_spec allColumns []).2.2 rfl⟩

/-- C4 counterexample: the desktop form submitted with the Allergy
checkbox ticked but the took-meds radio on No produces an entry whose
took_meds is false and whose med_types is ["Allergy"], not empty. -/
theorem medTypes_empty_cex :
    (submit_entry { baseDeskForm with allergy_med := true } "2024-01-01 00:00:00").took_meds
      = false ∧
    (submit_entry { baseDeskForm with allergy_med := true } "2024-01-01 00:00:00").med_types
      = ["Allergy"] ∧
    (["Allergy"] : List String) ≠ [] :=
  ⟨rfl, rfl, by decide⟩

/-- C4 (amended): every entry produced by either form submission has
med_types a subset of {Allergy, Anxiety, Other}; in the web variant
med_types is moreover empty whenever took_meds is false, while the
desktop variant stores the checked boxes regardless of the took-meds
answer. -/
theorem medTypes_subset_spec :
    (∀ (f : DesktopForm) (now : String),
      (submit_entry f now).med_types ⊆ ["Allergy", "Anxiety", "Other"]) ∧
    (∀ w : WebForm,
      (data_entry_page w).med_types ⊆ ["Allergy", "Anxiety", "Other"]) ∧
    (∀ w : WebForm, (data_entry_page w).took_meds = false →
      (data_entry_page w).med_types = []) := by
  refine ⟨?_, ?_, ?_⟩
  · intro f now x hx
    simp only [submit_entry] at hx
    cases ha : f.allergy_med <;> cases hb : f.anxiety_med <;> cases hc : f.other_med <;>
      simp [ha, hb, hc] at hx <;>
      simp only [List.mem_cons, List.not_mem_nil, or_false] <;> tauto
  · intro w x hx
    simp only [data_entry_page] at hx
    by_cases ht : w.took_meds_choice = "Yes"
    · cases ha : w.allergy_box <;> cases hb : w.anxiety_box <;> cases hc : w.other_box <;>
        simp [ht, ha, hb, hc] at hx <;>
        simp only [List.mem_cons, List.not_mem_nil, or_false] <;> tauto
    · simp [ht] at hx
  · intro w h
    simp only [data_entry_page] at h ⊢
    simp only [decide_eq_false_iff_not] at h
    simp [h]

/-- Witness for C4: the subset property at a concrete desktop form with
all boxes ticked, and web-form emptiness when meds were not taken. -/
theorem medTypes_subset_spec_witness :
    (submit_entry { baseDeskForm with allergy_med := true } "2024-01-01 00:00:00").med_types ⊆
      ["Allergy", "Anxiety", "Other"] ∧
    (data_entry_page { baseWebForm with allergy_box := true }).med_types = [] :=
  ⟨medTypes_subset_spec.1 _ "2024-01-01 00:00:00",
   medTypes_subset_spec.2.2 { baseWebForm with allergy_box := true } (by decide)⟩

/-- C5 counterexample: the desktop form submitted with the helped radio
on Yes but the took-meds radio on No produces an entry whose took_meds is
false and whose meds_helped is true. -/
theorem medsHelped_false_cex :
    (submit_entry { baseDeskForm with meds_helped := true } "2024-01-01 00:00:00").took_meds
      = false ∧
    (submit_entry { baseDeskForm with meds_helped := true } "2024-01-01 00:00:00").meds_helped
      = true :=
  ⟨rfl, rfl⟩

/-- C5 (amended): in the web variant meds_helped is false whenever
took_meds is false; the desktop variant stores the helped radio value
regardless of the took-meds answer (its default is false). -/
theorem medsHelped_web_spec :
    (∀ w : WebForm, (data_entry_page w).took_meds = false →
      (data_entry_page w).meds_helped = false) ∧
    (∀ (f : DesktopForm) (now : String),
      (submit_entry f now).meds_helped = f.meds_helped) := by
  refine ⟨?_, fun _ _ => rfl⟩
  intro w h
  simp only [data_entry_page] at h ⊢
  simp only [decide_eq_false_iff_not] at h
  simp [h]

/-- Witness for C5: the web form with helped answered Yes but meds not
taken still records meds_helped as false. -/
theorem medsHelped_web_spec_witness :
    (data_entry_page { baseWebForm with meds_helped_choice := "Yes" }).meds_helped = false ∧
    (submit_entry baseDeskForm "2024-01-01 00:00:00").meds_helped = baseDeskForm.meds_helped :=
  ⟨medsHelped_web_spec.1 { baseWebForm with meds_helped_choice := "Yes" } (by decide),
   medsHelped_web_spec.2 baseDeskForm "2024-01-01 00:00:00"⟩

theorem denoteTs_to_datetime (t : TsVal) : denoteTs (to_datetime t) = denoteTs t := by
  cases t <;> rfl

/-- C6 counterexample: generating the symptom-severity view on a state
whose single row still holds its raw timestamp string changes the state:
the timestamp column is rewritten in place to parsed form. -/
theorem views_readonly_cex :
    (generate_plot allColumns exState .symptomSeverity).1 ≠ exState := by decide

/-- C6 (amended): computing any of the four views never writes the
persisted file, changes no field of any stored entry other than the
timestamp column, preserves the entry count, and rewrites each timestamp
in place only to the parsed form of the same instant. -/
theorem views_frame_spec (cols : List String) (st : AppState) (viz : VizType) :
    (generate_plot cols st viz).1.file = st.file ∧
    (generate_plot cols st viz).1.data.map eraseTs = st.data.map eraseTs ∧
    (generate_plot cols st viz).1.data.map (fun r => denoteTs r.timestamp) =
      st.data.map (fun r => denoteTs r.timestamp) := by
  cases h : st.data.isEmpty
  · simp only [generate_plot, h, Bool.false_eq_true, if_false]
    refine ⟨trivial, ?_, ?_⟩
    · rw [List.map_map]
      apply List.map_congr_left
      intro a _
      rfl
    · rw [List.map_map]
      apply List.map_congr_left
      intro a _
      exact denoteTs_to_datetime a.timestamp
  · simp only [generate_plot, h, if_true]
    exact ⟨trivial, trivial, trivial⟩

instance (r : Row) : Decidable (goodRow r) := by
  unfold goodRow; infer_instance

theorem strPreserved_eq {s : String} (h : strPreserved s) :
    parseCell s = Cell.str s := h

theorem parseCell_serializeBool (b : Bool) :
    parseCell (serializeBool b) = .bool b := by cases b <;> decide

theorem parseCell_int {n : Int} (h0 : 0 ≤ n) (h10 : n ≤ 10) :
    parseCell (toString n) = .int n := by
  interval_cases n <;> decide

theorem strPreserved_of_mem_loc {s : String}
    (h : s ∈ (["Home", "Out"] : List String)) : strPreserved s := by
  simp only [List.mem_cons, List.not_mem_nil, or_false] at h
  rcases h with rfl | rfl <;> decide

theorem strPreserved_of_mem_sev {s : String}
    (h : s ∈ (["Mild", "Moderate", "Severe"] : List String)) : strPreserved s := by
  simp only [List.mem_cons, List.not_mem_nil, or_false] at h
  rcases h with rfl | rfl | rfl <;> decide

/-- C9 counterexample: the fully valid default entry (severity fields at
their default "None", free text empty, no medications) does not survive
the flat-file round trip: its "None" severity cells and empty text cells
reload as missing values rather than the original strings. -/
theorem csv_roundtrip_cex :
    load_csv (save_csv [baseRow]) ≠ [origCells baseRow] := by decide

/-- C9 (amended): serializing N valid entries and reloading yields N rows,
and the reloaded cell values are identical to the originals provided
additionally that no severity field is "None" and that the timestamp,
free-text and joined medication-type cells are not NA sentinels, boolean
literals or bare numerals; cells that are NA sentinels (such as severity
"None" or empty text) reload as missing instead. -/
theorem csv_roundtrip_spec (rows : List Row) (h : ∀ r ∈ rows, goodRow r) :
    load_csv (save_csv rows) = rows.map origCells ∧
    (load_csv (save_csv rows)).length = rows.length := by
  have hmain : load_csv (save_csv rows) = rows.map origCells := by
    rw [load_csv, save_csv, List.map_map]
    apply List.map_congr_left
    intro r hr
    rcases h r hr with
      ⟨h0, h10, hfs, hel, hbd, hsw, hst, hsp, hcp, hrf, hts, hfe, hco, hac, hmt⟩
    show (serializeRow r).map parseCell = origCells r
    simp only [serializeRow, origCells, List.map_cons, List.map_nil,
      strPreserved_eq hts, strPreserved_eq hfe, strPreserved_eq hco,
      strPreserved_eq hac, strPreserved_eq hmt,
      strPreserved_eq (strPreserved_of_mem_loc hfs),
      strPreserved_eq (strPreserved_of_mem_loc hel),
      strPreserved_eq (strPreserved_of_mem_sev hbd),
      strPreserved_eq (strPreserved_of_mem_sev hsw),
      strPreserved_eq (strPreserved_of_mem_sev hst),
      strPreserved_eq (strPreserved_of_mem_sev hsp),
      strPreserved_eq (strPreserved_of_mem_sev hcp),
      strPreserved_eq (strPreserved_of_mem_sev hrf),
      parseCell_serializeBool, parseCell_int h0 h10]
  exact ⟨hmain, by rw [hmain, List.length_map]⟩

/-- Witness for C9: a fully-filled valid row round-trips exactly. -/
theorem csv_roundtrip_spec_witness :
    load_csv (save_csv [wRow]) = [wRow].map origCells ∧
    (load_csv (save_csv [wRow])).length = ([wRow] : List Row).length :=
  csv_roundtrip_spec [wRow] (by decide)
